import Mathlib

/-!
Shallow embedding of the `particle-iot/button_sequence` library
(src/src/Debounce.cpp, src/src/Debounce.h, src/src/ButtonSequence.cpp,
src/src/ButtonSequence.h, src/src/types.h).

Machine integers: `system_tick_t` / `uint32_t` values are modelled as `Nat`
taken modulo `2^32` wherever the C code can overflow (timestamp storage and
the `millis() - t0` subtractions).  The monotonic clock `millis()` is passed
to each operation as an explicit `now : Nat` argument; pin / callback
sampling is modelled by passing the sampled boolean to `update` directly
(the source's two `update()` overloads both funnel into `update(bool)`).
-/

/-- Unsigned 32-bit subtraction `a - b` as performed on `uint32_t` operands:
the difference modulo `2^32`.  Both arguments are first truncated to 32 bits,
as storing them in `uint32_t` variables does in the source. -/
def wrapSub (a b : Nat) : Nat :=
  (a % 2 ^ 32 + 2 ^ 32 - b % 2 ^ 32) % 2 ^ 32

/-- State of one `Debounce` instance (Debounce.h).  The source packs the three
booleans into the bit field `_state` (`bit 0 = DEBOUNCE_STATE_DEBOUNCED`,
`bit 1 = DEBOUNCE_STATE_UNSTABLE`, `bit 3 = DEBOUNCE_STATE_CHANGED`); here each
bit is a named field, and the C bit operations `_state &= ~_BV(k)`,
`_state |= _BV(k)`, `_state ^= _BV(k)` become assignments / negations of the
corresponding field. -/
structure Debounce where
  previousMillis : Nat
  intervalMillis : Nat
  debounced : Bool
  unstable : Bool
  changed : Bool
  deriving DecidableEq, Repr

/-- `Debounce::update(bool currentState)` (Debounce.cpp lines 75-97), with the
current `millis()` value passed explicitly.  Returns the value of
`_state & _BV(DEBOUNCE_STATE_CHANGED)` after the update, together with the
updated state. -/
def Debounce.update (s : Debounce) (now : Nat) (currentState : Bool) : Bool × Debounce :=
  let s0 : Debounce := { s with changed := false }
  let s1 : Debounce :=
    if currentState ≠ s0.unstable then
      { s0 with previousMillis := now % 2 ^ 32, unstable := !s0.unstable }
    else
      if s0.intervalMillis ≤ wrapSub now s0.previousMillis then
        if s0.debounced ≠ currentState then
          { s0 with previousMillis := now % 2 ^ 32, debounced := !s0.debounced,
                    changed := true }
        else s0
      else s0
  (s1.changed, s1)

/-- `Debounce::read()` (Debounce.cpp lines 99-102): the debounced bit. -/
def Debounce.read (s : Debounce) : Bool :=
  s.debounced

/-- `Debounce::start()` (Debounce.cpp lines 64-70) combined with the initial
sample: `_state` is zeroed, then both the debounced and the unstable bit are
set to the initial reading, and the timer is seeded with `millis()`.
`interval(...)` has set `_intervalMillis` beforehand. -/
def Debounce.start (initialRead : Bool) (now intervalMillis : Nat) : Debounce :=
  { previousMillis := now % 2 ^ 32
    intervalMillis := intervalMillis % 2 ^ 32
    debounced := initialRead
    unstable := initialRead
    changed := false }

/-- Runs `Debounce.update` over a list of `(millis, sample)` pairs, collecting
the returned change flags. -/
def runDebounce (s : Debounce) : List (Nat × Bool) → List Bool × Debounce
  | [] => ([], s)
  | (t, v) :: rest =>
    let r := Debounce.update s t v
    let rs := runDebounce r.2 rest
    (r.1 :: rs.1, rs.2)

/-- Marks the first element of the list satisfying the predicate: the output
list is `false` everywhere except at the first satisfying position (if any),
which is `true`. -/
def markFirst (f : Nat → Bool) : List Nat → List Bool
  | [] => []
  | t :: ts => if f t then true :: List.replicate ts.length false else false :: markFirst f ts

/-- `ActiveLevel` (types.h). -/
inductive ActiveLevel where
  | LOW
  | HIGH
  deriving DecidableEq, Repr

/-- `SHORT_CLICK_TIMEOUT_MS` (ButtonSequence.cpp line 22). -/
def SHORT_CLICK_TIMEOUT_MS : Nat := 500

/-- The function-local `static` variables of `ButtonSequence::update_sequence`
(ButtonSequence.cpp lines 45-48): `long_press_timeout`, `short_depress_timeout`
and `start_time` are `system_tick_t` (uint32), `pressed` is a `bool` and
`click_count` an `int32_t` (modelled as `Int`; the reachable values stay small
and non-negative, see `seqReachable_invariant`).  Being `static`, in the source
there is exactly one copy of this record for the whole program, shared by every
`ButtonSequence` instance — see `TwoButtonSystem` below. -/
structure SeqState where
  long_press_timeout : Nat
  short_depress_timeout : Nat
  start_time : Nat
  pressed : Bool
  click_count : Int
  deriving DecidableEq, Repr

/-- Zero-initialisation of the static locals at program start. -/
def seqInit : SeqState :=
  { long_press_timeout := 0
    short_depress_timeout := 0
    start_time := 0
    pressed := false
    click_count := 0 }

/-- The line `pressed = (_active_low) ? !switch_state : switch_state`
(ButtonSequence.cpp line 53). -/
def pressedLevel (active_low : Bool) (switch_state : Bool) : Bool :=
  if active_low then !switch_state else switch_state

/-- `ButtonSequence::update_sequence(bool state_changed)` (ButtonSequence.cpp
lines 43-83).  Instance data read by the body — `_active_low`,
`_long_duration_interval` and the freshly updated debouncer's `read()` value
(`switch_state`) — and the current `millis()` are explicit arguments; the
static locals are threaded as `st`.  Returns `returnval` and the final value
of the static locals. -/
def update_sequence (active_low : Bool) (long_duration_interval : Nat)
    (switch_state : Bool) (now : Nat) (state_changed : Bool) (st : SeqState) :
    Int × SeqState :=
  if state_changed then
    let pressed := pressedLevel active_low switch_state
    let click_count := if pressed then st.click_count + 1 else st.click_count
    (0, { long_press_timeout :=
            if pressed then long_duration_interval else st.long_press_timeout
          short_depress_timeout :=
            if pressed then st.short_depress_timeout else SHORT_CLICK_TIMEOUT_MS
          start_time := now % 2 ^ 32
          pressed := pressed
          click_count := click_count })
  else
    if st.click_count ≠ 0 then
      if st.pressed then
        if st.long_press_timeout < wrapSub now st.start_time then
          (-1 * st.click_count, { st with click_count := 0 })
        else (0, st)
      else
        if st.short_depress_timeout < wrapSub now st.start_time then
          (st.click_count, { st with click_count := 0 })
        else (0, st)
    else (0, st)

/-- One `ButtonSequence` instance: its `Debounce` member, the fields
`_long_duration_interval` and `_active_low`, plus the gesture state used by its
`update_sequence` (for single-instance reasoning; the sharing of that state
between instances is modelled separately by `TwoButtonSystem`). -/
structure ButtonSequence where
  debounce_button : Debounce
  long_duration_interval : Nat
  active_low : Bool
  seq : SeqState
  deriving DecidableEq, Repr

/-- The `ButtonSequence` constructors (ButtonSequence.cpp lines 24-41): both
set `_active_low` from the active level, store `_long_duration_interval`, and
attach the debouncer, which samples once and starts with that reading.  The
gesture statics are zero-initialised at program start. -/
def ButtonSequence.construct (initialRead : Bool) (active_level : ActiveLevel)
    (now debounce_interval long_duration_interval : Nat) : ButtonSequence :=
  { debounce_button := Debounce.start initialRead now debounce_interval
    long_duration_interval := long_duration_interval % 2 ^ 32
    active_low := decide (active_level = ActiveLevel.LOW)
    seq := seqInit }

/-- `ButtonSequence::check_button` (ButtonSequence.cpp lines 85-95): both
overloads run `debounce_button.update(...)` and feed the outcome to
`update_sequence`; the sampled boolean is the explicit `current_state`. -/
def ButtonSequence.check_button (bs : ButtonSequence) (now : Nat)
    (current_state : Bool) : Int × ButtonSequence :=
  let d := Debounce.update bs.debounce_button now current_state
  let r := update_sequence bs.active_low bs.long_duration_interval
    (Debounce.read d.2) now d.1 bs.seq
  (r.1, { bs with debounce_button := d.2, seq := r.2 })

/-- `ButtonSequence::set_long_interval` (ButtonSequence.cpp lines 97-100). -/
def ButtonSequence.set_long_interval (bs : ButtonSequence)
    (long_duration_interval : Nat) : ButtonSequence :=
  { bs with long_duration_interval := long_duration_interval % 2 ^ 32 }

/-- `ButtonSequence::get_long_interval` (ButtonSequence.cpp lines 102-105). -/
def ButtonSequence.get_long_interval (bs : ButtonSequence) : Nat :=
  bs.long_duration_interval

/-- The per-instance member fields of a `ButtonSequence` (everything except
the `static` locals of `update_sequence`). -/
structure InstanceFields where
  debounce_button : Debounce
  long_duration_interval : Nat
  active_low : Bool
  deriving DecidableEq, Repr

/-- A program holding two distinct `ButtonSequence` instances.  Because the
gesture state lives in function-local `static` variables of
`ButtonSequence::update_sequence`, the program has ONE copy of it
(`shared_seq`), not one per instance; only the member fields are duplicated. -/
structure TwoButtonSystem where
  a : InstanceFields
  b : InstanceFields
  shared_seq : SeqState
  deriving DecidableEq, Repr

/-- `check_button` invoked on instance `a` of the two-instance program: it
uses `a`'s debouncer and configuration but reads and writes the shared static
gesture state. -/
def TwoButtonSystem.check_button_a (sys : TwoButtonSystem) (now : Nat)
    (current_state : Bool) : Int × TwoButtonSystem :=
  let d := Debounce.update sys.a.debounce_button now current_state
  let r := update_sequence sys.a.active_low sys.a.long_duration_interval
    (Debounce.read d.2) now d.1 sys.shared_seq
  (r.1, { sys with a := { sys.a with debounce_button := d.2 }, shared_seq := r.2 })

/-- `check_button` invoked on instance `b` of the two-instance program. -/
def TwoButtonSystem.check_button_b (sys : TwoButtonSystem) (now : Nat)
    (current_state : Bool) : Int × TwoButtonSystem :=
  let d := Debounce.update sys.b.debounce_button now current_state
  let r := update_sequence sys.b.active_low sys.b.long_duration_interval
    (Debounce.read d.2) now d.1 sys.shared_seq
  (r.1, { sys with b := { sys.b with debounce_button := d.2 }, shared_seq := r.2 })

/-- States of the static gesture record reachable from program start through
any sequence of `update_sequence` calls (with arbitrary instance
configuration, debounced reading and clock value at each step). -/
inductive SeqReachable : SeqState → Prop
  | init : SeqReachable seqInit
  | step (al : Bool) (ldi : Nat) (dr : Bool) (now : Nat) (chg : Bool)
      {st : SeqState} : SeqReachable st →
      SeqReachable (update_sequence al ldi dr now chg st).2

/-- A maximally bouncy raw trace: the sample flips at every poll, starting
from `v`, at the given poll times. -/
def altSamples (v : Bool) : List Nat → List (Nat × Bool)
  | [] => []
  | t :: ts => (t, v) :: altSamples (!v) ts

/-- Two-instance demonstration program: two active-high buttons, debounce
window 50 ms, long-hold 5000 ms, both debouncers settled low, gesture statics
zero-initialised. -/
def twoButtonDemoInit : TwoButtonSystem :=
  { a := { debounce_button := ⟨0, 50, false, false, false⟩
           long_duration_interval := 5000
           active_low := false }
    b := { debounce_button := ⟨0, 50, false, false, false⟩
           long_duration_interval := 5000
           active_low := false }
    shared_seq := seqInit }

/-- The demonstration program after one debounced press-and-release performed
entirely on instance `a`: raw press sampled at t=0 and t=100 (debounced press
commits at t=100), raw release sampled at t=150 and t=250 (debounced release
commits at t=250).  Instance `b`'s button is never touched. -/
def twoButtonDemoAfterA : TwoButtonSystem :=
  (TwoButtonSystem.check_button_a
    (TwoButtonSystem.check_button_a
      (TwoButtonSystem.check_button_a
        (TwoButtonSystem.check_button_a twoButtonDemoInit 0 true).2
        100 true).2
      150 false).2
    250 false).2

/-- Single-instance demonstration state for the result-classification witness:
active-high button, debouncer settled low, gesture state holding 2 accumulated
clicks with the button released since t = 100 and the 500 ms grace period
armed. -/
def checkButtonDemo : ButtonSequence :=
  { debounce_button := ⟨0, 50, false, false, false⟩
    long_duration_interval := 5000
    active_low := false
    seq := ⟨5000, 500, 100, false, 2⟩ }

/-! ### Helper lemmas -/

/-- Per-call classification of `update_sequence` results, assuming the two
invariants of the reachable gesture states (`seqReachable_invariant`):
non-negative click count, and the 500 ms grace period armed whenever a
sequence is in progress with the button released. -/
lemma update_sequence_classification (al : Bool) (ldi : Nat) (dr : Bool)
    (now : Nat) (chg : Bool) (st : SeqState) (h1 : 0 ≤ st.click_count)
    (h2 : st.click_count ≠ 0 → st.pressed = false → st.short_depress_timeout = 500) :
    (chg = true → (update_sequence al ldi dr now chg st).1 = 0) ∧
    (0 < (update_sequence al ldi dr now chg st).1 ↔
      chg = false ∧ st.pressed = false ∧ 0 < st.click_count ∧
        500 < wrapSub now st.start_time) ∧
    (0 < (update_sequence al ldi dr now chg st).1 →
      (update_sequence al ldi dr now chg st).1 = st.click_count) ∧
    ((update_sequence al ldi dr now chg st).1 < 0 ↔
      chg = false ∧ st.pressed = true ∧ 0 < st.click_count ∧
        st.long_press_timeout < wrapSub now st.start_time) ∧
    ((update_sequence al ldi dr now chg st).1 < 0 →
      (update_sequence al ldi dr now chg st).1 = -st.click_count) := by
  by_cases hc : chg = true
  · simp [update_sequence, hc]
  · have hc' : chg = false := by cases chg <;> simp_all
    subst hc'
    by_cases h0 : st.click_count = 0
    · simp [update_sequence, h0]
    · by_cases hp : st.pressed = true
      · by_cases ht : st.long_press_timeout < wrapSub now st.start_time <;>
          simp [update_sequence, h0, hp, ht] <;> omega
      · rw [Bool.not_eq_true] at hp
        have h500 : st.short_depress_timeout = 500 := h2 h0 hp
        by_cases ht : 500 < wrapSub now st.start_time <;>
          simp [update_sequence, h0, hp, h500, ht] <;> omega

/-- The click count after a call, as a function of the call's result: zeroed
exactly when the result is non-zero, otherwise unchanged except for the
increment on a debounced press transition. -/
lemma update_sequence_click_count (al : Bool) (ldi : Nat) (dr : Bool)
    (now : Nat) (chg : Bool) (st : SeqState) :
    (update_sequence al ldi dr now chg st).2.click_count =
      if (update_sequence al ldi dr now chg st).1 = 0 then
        st.click_count +
          (if chg = true ∧ pressedLevel al dr = true then 1 else 0)
      else 0 := by
  by_cases hc : chg = true
  · by_cases hp : pressedLevel al dr = true <;> simp [update_sequence, hc, hp]
  · have hc' : chg = false := by cases chg <;> simp_all
    subst hc'
    by_cases h0 : st.click_count = 0
    · simp [update_sequence, h0]
    · by_cases hp : st.pressed = true
      · by_cases ht : st.long_press_timeout < wrapSub now st.start_time <;>
          simp [update_sequence, h0, hp, ht] <;> split_ifs <;> omega
      · rw [Bool.not_eq_true] at hp
        by_cases ht : st.short_depress_timeout < wrapSub now st.start_time <;>
          simp [update_sequence, h0, hp, ht] <;> split_ifs <;> omega

lemma wrapSub_mod_left (a b : Nat) : wrapSub (a % 2 ^ 32) b = wrapSub a b := by
  simp [wrapSub, Nat.mod_mod_of_dvd]

lemma wrapSub_mod_right (a b : Nat) : wrapSub a (b % 2 ^ 32) = wrapSub a b := by
  simp [wrapSub, Nat.mod_mod_of_dvd]

/-- Within a single wraparound of the counter, the unsigned 32-bit difference
recovers the true elapsed time. -/
lemma wrapSub_elapsed (t0 t1 : Nat) (h1 : t0 ≤ t1) (h2 : t1 - t0 < 2 ^ 32) :
    wrapSub t1 t0 = t1 - t0 := by
  simp only [wrapSub]
  omega

/-- Branch-level description of `Debounce.update`. -/
lemma Debounce.update_eq (s : Debounce) (now : Nat) (v : Bool) :
    Debounce.update s now v =
      if v = s.unstable then
        (if s.intervalMillis ≤ wrapSub now s.previousMillis ∧ ¬ s.debounced = v then
          (true, ⟨now % 2 ^ 32, s.intervalMillis, !s.debounced, s.unstable, true⟩)
        else
          (false, ⟨s.previousMillis, s.intervalMillis, s.debounced, s.unstable, false⟩))
      else
        (false, ⟨now % 2 ^ 32, s.intervalMillis, s.debounced, !s.unstable, false⟩) := by
  cases s with
  | mk p iv d u c =>
    simp only [Debounce.update]
    by_cases h : v = u
    · subst h
      simp
      by_cases he : iv ≤ wrapSub now p
      · by_cases hd : d = v <;> simp [he, hd]
      · simp [he]
    · simp [h, Ne.symm h]

/-- A settled debouncer fed its own stable level reports no change and keeps
its state (except that the changed flag is cleared). -/
lemma Debounce.update_absorbed (p iv : Nat) (v : Bool) (t : Nat) (c : Bool) :
    Debounce.update ⟨p, iv, v, v, c⟩ t v = (false, ⟨p, iv, v, v, false⟩) := by
  simp [Debounce.update_eq]

/-- A debouncer with a pending candidate (`unstable = v`, `debounced = !v`)
fed `v` commits exactly when the settle window has elapsed. -/
lemma Debounce.update_pending (p iv : Nat) (v : Bool) (t : Nat) (c : Bool) :
    Debounce.update ⟨p, iv, !v, v, c⟩ t v =
      if iv ≤ wrapSub t p then (true, ⟨t % 2 ^ 32, iv, v, v, true⟩)
      else (false, ⟨p, iv, !v, v, false⟩) := by
  simp only [Debounce.update_eq]
  by_cases he : iv ≤ wrapSub t p <;> simp [he]

/-- A settled debouncer fed its stable level forever never reports a change. -/
lemma runDebounce_absorbed (v : Bool) : ∀ (ts : List Nat) (p iv : Nat) (c : Bool),
    (runDebounce ⟨p, iv, v, v, c⟩ (ts.map fun t => (t, v))).1 =
      List.replicate ts.length false
  | [], _, _, _ => rfl
  | t :: ts, p, iv, c => by
    simp only [List.map_cons, runDebounce, Debounce.update_absorbed,
      runDebounce_absorbed v ts p iv false, List.length_cons, List.replicate_succ]

/-- A debouncer with a pending candidate fed that candidate forever reports a
change exactly once, on the first call at or after the settle window from the
recorded retrigger time `p` has elapsed. -/
lemma runDebounce_pending (v : Bool) : ∀ (ts : List Nat) (p iv : Nat) (c : Bool),
    (runDebounce ⟨p, iv, !v, v, c⟩ (ts.map fun t => (t, v))).1 =
      markFirst (fun t => decide (iv ≤ wrapSub t p)) ts
  | [], _, _, _ => rfl
  | t :: ts, p, iv, c => by
    simp only [List.map_cons, runDebounce, Debounce.update_pending, markFirst]
    by_cases he : iv ≤ wrapSub t p
    · simp [he, runDebounce_absorbed]
    · simp [he, runDebounce_pending v ts p iv false]

/-- `markFirst` marks at most one position, and exactly one when some element
satisfies the predicate. -/
lemma markFirst_count (f : Nat → Bool) : ∀ ts : List Nat,
    (markFirst f ts).count true = if ts.any f then 1 else 0
  | [] => rfl
  | t :: ts => by
    simp only [markFirst, List.any_cons]
    by_cases h : f t
    · simp [h, List.count_replicate]
    · simp [h, markFirst_count f ts]

lemma mod32_mod32 (a : Nat) : a % 2 ^ 32 % 2 ^ 32 = a % 2 ^ 32 :=
  Nat.mod_mod_of_dvd a dvd_rfl

/-- A raw signal that flips at every poll retriggers the settle window at
every poll and therefore never yields a change report, whatever the poll
times are. -/
lemma runDebounce_alternating : ∀ (ts : List Nat) (s : Debounce) (v : Bool),
    v ≠ s.unstable →
    (runDebounce s (altSamples v ts)).1 = List.replicate ts.length false
  | [], _, _, _ => rfl
  | t :: ts, s, v, hv => by
    have hv' : (!v) ≠ (!s.unstable) := by
      cases v <;> cases hu : s.unstable <;> simp_all
    simp only [altSamples, runDebounce, Debounce.update_eq, if_neg hv]
    rw [runDebounce_alternating ts _ (!v) hv']
    simp [List.replicate_succ]

/-- The result of a call never depends on the current value of
`_long_duration_interval`: on transition calls the result is 0 and the value
is merely latched; on timeout calls only the latched `long_press_timeout` is
consulted. -/
lemma update_sequence_fst_ldi (al : Bool) (ldi ldi' : Nat) (dr : Bool)
    (now : Nat) (chg : Bool) (st : SeqState) :
    (update_sequence al ldi dr now chg st).1 =
      (update_sequence al ldi' dr now chg st).1 := by
  by_cases hc : chg = true <;> simp [update_sequence, hc]

/-- The static gesture record only ever holds a non-negative click count, and
whenever a sequence is in progress with the button released, the armed
short-depress timeout is the 500 ms grace period. -/
lemma seqReachable_invariant {st : SeqState} (h : SeqReachable st) :
    0 ≤ st.click_count ∧
      (st.click_count ≠ 0 → st.pressed = false → st.short_depress_timeout = 500) := by
  induction h with
  | init => simp [seqInit]
  | step al ldi dr now chg h ih =>
    rename_i st'
    obtain ⟨ih1, ih2⟩ := ih
    simp only [update_sequence]
    by_cases hc : chg = true
    · simp only [hc, if_true]
      by_cases hp : pressedLevel al dr = true <;>
        simp [hp, SHORT_CLICK_TIMEOUT_MS, ih1] <;> omega
    · have hc' : chg = false := by cases chg <;> simp_all
      simp only [hc']
      by_cases h0 : st'.click_count = 0
      · simp [h0]
      · by_cases hp : st'.pressed = true
        · by_cases ht : st'.long_press_timeout < wrapSub now st'.start_time <;>
            simp [h0, hp, ht, ih1, ih2]
        · rw [Bool.not_eq_true] at hp
          have h500 : st'.short_depress_timeout = 500 := ih2 h0 hp
          rw [h500]
          by_cases ht : 500 < wrapSub now st'.start_time <;>
            simp [h0, hp, ht, ih1, h500]

/-! ### Claim theorems -/

/-- C10: whenever `Debounce.update` reports a change for sample `v`, the
committed debounced level (what an immediately following `read` returns) is
`v`; on calls reporting no change the debounced level is untouched. -/
theorem C10_read_after_update (s : Debounce) (now : Nat) (v : Bool) :
    Debounce.read (Debounce.update s now v).2 =
      (if (Debounce.update s now v).1 = true then v else Debounce.read s) := by
  obtain ⟨p, iv, d, u, c⟩ := s
  simp only [Debounce.update_eq, Debounce.read]
  by_cases he : iv ≤ wrapSub now p <;> cases d <;> cases u <;> cases v <;> simp [he]

/-- C2: on any `check_button` call in which the debouncer reports a debounced
transition, no gesture result is emitted (the call returns 0) and the timers
are re-armed from the transition — `start_time` is set to the current clock
and the deadline matching the new level is re-latched — even if a previously
armed deadline had already expired on that same call. -/
theorem C2_transition_wins_over_timeout (bs : ButtonSequence) (now : Nat)
    (v : Bool) (h : (Debounce.update bs.debounce_button now v).1 = true) :
    (ButtonSequence.check_button bs now v).1 = 0 ∧
    (ButtonSequence.check_button bs now v).2.seq.start_time = now % 2 ^ 32 ∧
    (ButtonSequence.check_button bs now v).2.seq.pressed =
      pressedLevel bs.active_low
        (Debounce.read (Debounce.update bs.debounce_button now v).2) ∧
    (ButtonSequence.check_button bs now v).2.seq.long_press_timeout =
      (if pressedLevel bs.active_low
            (Debounce.read (Debounce.update bs.debounce_button now v).2) = true
       then bs.long_duration_interval else bs.seq.long_press_timeout) ∧
    (ButtonSequence.check_button bs now v).2.seq.short_depress_timeout =
      (if pressedLevel bs.active_low
            (Debounce.read (Debounce.update bs.debounce_button now v).2) = true
       then bs.seq.short_depress_timeout else 500) := by
  by_cases hp : pressedLevel bs.active_low
      (Debounce.read (Debounce.update bs.debounce_button now v).2) = true <;>
    simp [ButtonSequence.check_button, update_sequence, h, hp, SHORT_CLICK_TIMEOUT_MS]

/-- C2 witness: a debounced press transition commits at t = 600 on the same
call at which the 500 ms short-release deadline armed at t = 0 has long
expired; the transition wins — the call returns 0 and re-arms the timers. -/
theorem C2_transition_wins_over_timeout_witness :
    (Debounce.update (⟨0, 50, false, true, false⟩ : Debounce) 600 true).1 = true ∧
    (ButtonSequence.check_button
        ⟨⟨0, 50, false, true, false⟩, 5000, false, ⟨5000, 500, 0, false, 1⟩⟩
        600 true).1 = 0 ∧
    (ButtonSequence.check_button
        ⟨⟨0, 50, false, true, false⟩, 5000, false, ⟨5000, 500, 0, false, 1⟩⟩
        600 true).2.seq.start_time = 600 % 2 ^ 32 :=
  have h := C2_transition_wins_over_timeout
    ⟨⟨0, 50, false, true, false⟩, 5000, false, ⟨5000, 500, 0, false, 1⟩⟩
    600 true (by decide)
  ⟨by decide, h.1, h.2.1⟩

/-- C5: on every `check_button` call the click count is zeroed exactly when
the call returns a non-zero result; on calls returning 0 it is unchanged
except for the increment caused by a debounced press transition. -/
theorem C5_click_count_reset_iff_emit (bs : ButtonSequence) (now : Nat)
    (v : Bool) :
    (ButtonSequence.check_button bs now v).2.seq.click_count =
      (if (ButtonSequence.check_button bs now v).1 = 0 then
        bs.seq.click_count +
          (if (Debounce.update bs.debounce_button now v).1 = true ∧
              pressedLevel bs.active_low
                (Debounce.read (Debounce.update bs.debounce_button now v).2) = true
           then 1 else 0)
      else 0) := by
  simp only [ButtonSequence.check_button]
  exact update_sequence_click_count bs.active_low bs.long_duration_interval
    (Debounce.read (Debounce.update bs.debounce_button now v).2) now
    (Debounce.update bs.debounce_button now v).1 bs.seq

/-- C7: `set_long_interval` never changes the result of the current call —
an already-armed long-hold deadline is governed by the `long_press_timeout`
value latched when the press transition occurred — and timeout-checking calls
(no transition) are entirely independent of the current
`_long_duration_interval`; the setter's value is latched only by a later
press transition. -/
theorem C7_setter_not_retroactive (bs : ButtonSequence) (x now : Nat)
    (v : Bool) (al : Bool) (ldi ldi' : Nat) (dr : Bool) (st : SeqState) :
    (ButtonSequence.check_button (ButtonSequence.set_long_interval bs x) now v).1 =
      (ButtonSequence.check_button bs now v).1 ∧
    update_sequence al ldi dr now false st = update_sequence al ldi' dr now false st ∧
    (update_sequence al ldi dr now true st).2.long_press_timeout =
      (if pressedLevel al dr = true then ldi else st.long_press_timeout) := by
  refine ⟨?_, ?_, ?_⟩
  · simp only [ButtonSequence.check_button, ButtonSequence.set_long_interval]
    exact update_sequence_fst_ldi bs.active_low (x % 2 ^ 32) bs.long_duration_interval
      (Debounce.read (Debounce.update bs.debounce_button now v).2) now
      (Debounce.update bs.debounce_button now v).1 bs.seq
  · simp [update_sequence]
  · by_cases hp : pressedLevel al dr = true <;> simp [update_sequence, hp]

/-- C8: on a debounced transition, under active-high configuration `pressed`
equals the debounced level and under active-low its negation, so swapping the
polarity on the same debounced reading inverts `pressed`; timeout-checking
calls (the sign/magnitude classification) do not depend on the polarity at
all. -/
theorem C8_polarity_correctness (ldi : Nat) (dr : Bool) (now : Nat)
    (st : SeqState) (al al' : Bool) :
    (update_sequence false ldi dr now true st).2.pressed = dr ∧
    (update_sequence true ldi dr now true st).2.pressed = !dr ∧
    (update_sequence true ldi dr now true st).2.pressed =
      !(update_sequence false ldi dr now true st).2.pressed ∧
    update_sequence al ldi dr now false st = update_sequence al' ldi dr now false st := by
  refine ⟨?_, ?_, ?_, ?_⟩ <;> simp [update_sequence, pressedLevel]

/-- C9: the elapsed-time tests of both components are computed through the
unsigned 32-bit difference `wrapSub` (used by `Debounce.update` and
`update_sequence`), which recovers the true elapsed time within a single
wraparound of the counter; consequently both update functions behave as
functions of the 32-bit truncated clock value. -/
theorem C9_unsigned_wraparound_arithmetic (t0 t1 : Nat) (s : Debounce)
    (v : Bool) (al : Bool) (ldi : Nat) (dr : Bool) (chg : Bool) (st : SeqState)
    (h1 : t0 ≤ t1) (h2 : t1 - t0 < 2 ^ 32) :
    wrapSub t1 t0 = t1 - t0 ∧
    Debounce.update s t1 v = Debounce.update s (t1 % 2 ^ 32) v ∧
    update_sequence al ldi dr t1 chg st =
      update_sequence al ldi dr (t1 % 2 ^ 32) chg st := by
  refine ⟨wrapSub_elapsed t0 t1 h1 h2, ?_, ?_⟩
  · simp only [Debounce.update, mod32_mod32, wrapSub_mod_left]
  · simp only [update_sequence, mod32_mod32, wrapSub_mod_left]

/-- C9 witness: a press latched 100 ms before the counter wraps, observed
50 ms after the wrap: the 32-bit difference is the true 150 ms elapsed, and
both update functions agree with their truncated-clock runs. -/
theorem C9_unsigned_wraparound_arithmetic_witness :
    wrapSub (2 ^ 32 + 50) (2 ^ 32 - 100) = (2 ^ 32 + 50) - (2 ^ 32 - 100) ∧
    Debounce.update (⟨2 ^ 32 - 100, 30, false, false, false⟩ : Debounce)
        (2 ^ 32 + 50) false =
      Debounce.update (⟨2 ^ 32 - 100, 30, false, false, false⟩ : Debounce)
        ((2 ^ 32 + 50) % 2 ^ 32) false ∧
    update_sequence false 5000 false (2 ^ 32 + 50) false
        ⟨5000, 500, 2 ^ 32 - 100, true, 1⟩ =
      update_sequence false 5000 false ((2 ^ 32 + 50) % 2 ^ 32) false
        ⟨5000, 500, 2 ^ 32 - 100, true, 1⟩ :=
  C9_unsigned_wraparound_arithmetic (2 ^ 32 - 100) (2 ^ 32 + 50)
    ⟨2 ^ 32 - 100, 30, false, false, false⟩ false false 5000 false false
    ⟨5000, 500, 2 ^ 32 - 100, true, 1⟩ (by decide) (by decide)

/-- C6: a change report requires that the sample equal the recorded raw bit
and that a full uninterrupted settle window have elapsed since that bit was
last disturbed (first conjunct, an exact characterisation of the returned
flag); a sample differing from the recorded raw bit retriggers — it resets
the settle timer to now and flips the recorded raw bit, reporting no change
(second conjunct); hence a raw signal that flips at every poll, with any
inter-bounce spacing whatsoever, never produces a change report (third
conjunct). -/
theorem C6_bounce_rejection (s : Debounce) (now : Nat) (v : Bool)
    (ts : List Nat) :
    ((Debounce.update s now v).1 =
      (decide (v = s.unstable) &&
        decide (s.intervalMillis ≤ wrapSub now s.previousMillis) &&
        !(decide (s.debounced = v)))) ∧
    (v ≠ s.unstable →
      Debounce.update s now v =
        (false, { s with previousMillis := now % 2 ^ 32, unstable := !s.unstable,
                         changed := false })) ∧
    (v ≠ s.unstable →
      (runDebounce s (altSamples v ts)).1 = List.replicate ts.length false) := by
  refine ⟨?_, ?_, ?_⟩
  · obtain ⟨p, iv, d, u, c⟩ := s
    simp only [Debounce.update_eq]
    by_cases he : iv ≤ wrapSub now p <;> cases d <;> cases u <;> cases v <;> simp [he]
  · intro hv
    simp [Debounce.update_eq, hv]
  · intro hv
    exact runDebounce_alternating ts s v hv

/-- C6 witness: debouncer settled low with a 50 ms window; a high sample at
t = 7 retriggers with no change report, and the alternating trace
high-low-high at t = 10, 20, 100 yields no change report either. -/
theorem C6_bounce_rejection_witness :
    ((Debounce.update (⟨0, 50, false, false, false⟩ : Debounce) 7 true).1 =
      (decide (true = (⟨0, 50, false, false, false⟩ : Debounce).unstable) &&
        decide ((⟨0, 50, false, false, false⟩ : Debounce).intervalMillis ≤
          wrapSub 7 (⟨0, 50, false, false, false⟩ : Debounce).previousMillis) &&
        !(decide ((⟨0, 50, false, false, false⟩ : Debounce).debounced = true)))) ∧
    Debounce.update (⟨0, 50, false, false, false⟩ : Debounce) 7 true =
      (false, ⟨7 % 2 ^ 32, 50, false, true, false⟩) ∧
    (runDebounce (⟨0, 50, false, false, false⟩ : Debounce)
        (altSamples true [10, 20, 100])).1 =
      List.replicate ([10, 20, 100] : List Nat).length false :=
  have h := C6_bounce_rejection ⟨0, 50, false, false, false⟩ 7 true [10, 20, 100]
  have h3 := C6_bounce_rejection ⟨0, 50, false, false, false⟩ 10 true [10, 20, 100]
  ⟨h.1, by rw [h.2.1 (by decide)]; rfl, h3.2.2 (by decide)⟩

/-- C3: from a settled debouncer, a raw signal that changes value once at
time `tc` and then holds produces no change report on the changing call, and
over the subsequent polls the change reports are exactly `markFirst` of the
predicate "the settle window has elapsed since `tc`": `false` until the first
poll at or after `tc + intervalMillis`, `true` exactly there, and `false`
ever after — so exactly one `true` occurs provided some poll reaches the
window, and none before it. -/
theorem C3_single_change_commits_once (s0 : Debounce) (v0 : Bool) (tc : Nat)
    (ts : List Nat) (h1 : s0.debounced = v0) (h2 : s0.unstable = v0) :
    (Debounce.update s0 tc (!v0)).1 = false ∧
    (runDebounce (Debounce.update s0 tc (!v0)).2 (ts.map fun t => (t, !v0))).1 =
      markFirst (fun t => decide (s0.intervalMillis ≤ wrapSub t tc)) ts ∧
    (markFirst (fun t => decide (s0.intervalMillis ≤ wrapSub t tc)) ts).count true =
      (if ts.any (fun t => decide (s0.intervalMillis ≤ wrapSub t tc)) then 1
       else 0) := by
  obtain ⟨p, iv, d, u, c⟩ := s0
  simp only at h1 h2
  refine ⟨?_, ?_, markFirst_count _ ts⟩
  · simp [Debounce.update_eq, h1, h2]
  · have hu : (Debounce.update ⟨p, iv, d, u, c⟩ tc !v0).2 =
        ⟨tc % 2 ^ 32, iv, v0, !v0, false⟩ := by
      simp [Debounce.update_eq, h1, h2]
    rw [hu]
    have hrun := runDebounce_pending (!v0) ts (tc % 2 ^ 32) iv false
    simp only [Bool.not_not] at hrun
    rw [hrun]
    congr 1
    funext t
    rw [wrapSub_mod_right]

/-- C3 witness: debouncer settled low with a 50 ms window, raw change to high
at t = 10 held through polls at t = 20, 40, 70, 100: the change call reports
false and the polls report false, false, true, false — exactly one change, at
the first poll at or after t = 60. -/
theorem C3_single_change_commits_once_witness :
    (Debounce.update (⟨0, 50, false, false, false⟩ : Debounce) 10 (!false)).1 =
      false ∧
    (runDebounce (Debounce.update (⟨0, 50, false, false, false⟩ : Debounce)
        10 (!false)).2 (([20, 40, 70, 100] : List Nat).map fun t => (t, !false))).1 =
      markFirst
        (fun t => decide ((⟨0, 50, false, false, false⟩ : Debounce).intervalMillis ≤
          wrapSub t 10)) [20, 40, 70, 100] ∧
    (markFirst
        (fun t => decide ((⟨0, 50, false, false, false⟩ : Debounce).intervalMillis ≤
          wrapSub t 10)) [20, 40, 70, 100]).count true =
      (if ([20, 40, 70, 100] : List Nat).any
          (fun t => decide ((⟨0, 50, false, false, false⟩ : Debounce).intervalMillis ≤
            wrapSub t 10)) then 1 else 0) :=
  C3_single_change_commits_once ⟨0, 50, false, false, false⟩ false 10
    [20, 40, 70, 100] rfl rfl

/-- C1: per-call classification of `check_button` results, under the
invariants that hold for every reachable gesture state
(`seqReachable_invariant`): a call with a debounced transition returns 0; a
positive result occurs exactly when no transition occurred, the button is
released with a sequence in progress and the 500 ms grace period has elapsed
since the release, and then the result is the accumulated click count; a
negative result occurs exactly when no transition occurred, the button is
held with a sequence in progress and the latched long-hold timeout has
elapsed since the press, and then its magnitude is the accumulated click
count (which covers both the single long hold, count 1, and several shorts
terminated by one long hold). -/
theorem C1_result_classification (bs : ButtonSequence) (now : Nat) (v : Bool)
    (h1 : 0 ≤ bs.seq.click_count)
    (h2 : bs.seq.click_count ≠ 0 → bs.seq.pressed = false →
      bs.seq.short_depress_timeout = 500) :
    ((Debounce.update bs.debounce_button now v).1 = true →
      (ButtonSequence.check_button bs now v).1 = 0) ∧
    (0 < (ButtonSequence.check_button bs now v).1 ↔
      (Debounce.update bs.debounce_button now v).1 = false ∧
        bs.seq.pressed = false ∧ 0 < bs.seq.click_count ∧
        500 < wrapSub now bs.seq.start_time) ∧
    (0 < (ButtonSequence.check_button bs now v).1 →
      (ButtonSequence.check_button bs now v).1 = bs.seq.click_count) ∧
    ((ButtonSequence.check_button bs now v).1 < 0 ↔
      (Debounce.update bs.debounce_button now v).1 = false ∧
        bs.seq.pressed = true ∧ 0 < bs.seq.click_count ∧
        bs.seq.long_press_timeout < wrapSub now bs.seq.start_time) ∧
    ((ButtonSequence.check_button bs now v).1 < 0 →
      (ButtonSequence.check_button bs now v).1 = -bs.seq.click_count) := by
  simp only [ButtonSequence.check_button]
  exact update_sequence_classification bs.active_low bs.long_duration_interval
    (Debounce.read (Debounce.update bs.debounce_button now v).2) now
    (Debounce.update bs.debounce_button now v).1 bs.seq h1 h2

/-- C1 witness: `checkButtonDemo` holds 2 accumulated clicks, released at
t = 100; a call at t = 800 sees no debounced transition and an elapsed grace
period of 700 ms, so the classification instantiates with a positive
completed gesture. -/
theorem C1_result_classification_witness :
    ((Debounce.update checkButtonDemo.debounce_button 800 false).1 = true →
      (ButtonSequence.check_button checkButtonDemo 800 false).1 = 0) ∧
    (0 < (ButtonSequence.check_button checkButtonDemo 800 false).1 ↔
      (Debounce.update checkButtonDemo.debounce_button 800 false).1 = false ∧
        checkButtonDemo.seq.pressed = false ∧ 0 < checkButtonDemo.seq.click_count ∧
        500 < wrapSub 800 checkButtonDemo.seq.start_time) ∧
    (0 < (ButtonSequence.check_button checkButtonDemo 800 false).1 →
      (ButtonSequence.check_button checkButtonDemo 800 false).1 =
        checkButtonDemo.seq.click_count) ∧
    ((ButtonSequence.check_button checkButtonDemo 800 false).1 < 0 ↔
      (Debounce.update checkButtonDemo.debounce_button 800 false).1 = false ∧
        checkButtonDemo.seq.pressed = true ∧ 0 < checkButtonDemo.seq.click_count ∧
        checkButtonDemo.seq.long_press_timeout < wrapSub 800 checkButtonDemo.seq.start_time) ∧
    ((ButtonSequence.check_button checkButtonDemo 800 false).1 < 0 →
      (ButtonSequence.check_button checkButtonDemo 800 false).1 =
        -checkButtonDemo.seq.click_count) :=
  C1_result_classification checkButtonDemo 800 false (by decide) (by decide)

/-- C4: the gesture state lives in function-local static storage shared by
every `ButtonSequence` instance, so two distinct instances interfere: after
one debounced press-and-release performed entirely on instance `a`, instance
`b` — whose member fields are untouched and whose debouncer reports no
transition — returns the completed gesture `+1` produced by `a`'s press,
whereas with a private zero-initialised gesture state the same call on `b`
would return 0. -/
theorem C4_static_gesture_state_is_shared :
    twoButtonDemoAfterA.b = twoButtonDemoInit.b ∧
    (Debounce.update twoButtonDemoAfterA.b.debounce_button 1000 false).1 = false ∧
    (TwoButtonSystem.check_button_b twoButtonDemoAfterA 1000 false).1 = 1 ∧
    (update_sequence twoButtonDemoAfterA.b.active_low
        twoButtonDemoAfterA.b.long_duration_interval false 1000 false seqInit).1 = 0 := by
  decide
